import Mathlib

/-!
Verification development for the P2P connection handler
(`src/network/src/p2p/handler.rs`).

The `Manager` and `Handler` state machines are translated from the source.
Collaborating components that live outside the provided source tree
(`TokenGenerator`, `Connection`, `UnprocessedConnection`, `Stream`,
`Listener`) are modelled from the specification; each such definition says
so in its doc comment.

Maps (`HashMap` in the source) are modelled as association lists whose
keys are kept duplicate-free by construction; sets (`HashSet`) as plain
lists.
-/

set_option autoImplicit false

namespace P2P

/-! ## Association-list maps (model of `std::collections::HashMap`) -/

section MapOps

variable {α β : Type} [DecidableEq α]

/-- Lookup the value bound to `k` (model of `HashMap::get`). -/
def lookupA : List (α × β) → α → Option β
  | [], _ => none
  | p :: rest, k => if p.1 = k then some p.2 else lookupA rest k

/-- Drop every binding of `k` (the removal half of `HashMap::remove`). -/
def eraseA : List (α × β) → α → List (α × β)
  | [], _ => []
  | p :: rest, k => if p.1 = k then eraseA rest k else p :: eraseA rest k

/-- Bind `k` to `v`, replacing any previous binding (model of `HashMap::insert`). -/
def insertA (m : List (α × β)) (k : α) (v : β) : List (α × β) :=
  (k, v) :: eraseA m k

/-- Replace the value bound to `k` in place (model of mutation through `HashMap::get_mut`). -/
def updateA (m : List (α × β)) (k : α) (v : β) : List (α × β) :=
  m.map (fun p => if p.1 = k then (k, v) else p)

/-- Key list of the map. -/
def keysA (m : List (α × β)) : List α :=
  m.map Prod.fst

theorem lookupA_eraseA_self (m : List (α × β)) (k : α) :
    lookupA (eraseA m k) k = none := by
  induction m with
  | nil => rfl
  | cons p rest ih =>
    by_cases h : p.1 = k
    · simp [eraseA, h, ih]
    · simp [eraseA, lookupA, h, ih]

theorem lookupA_eraseA_ne (m : List (α × β)) {k k' : α} (h : k' ≠ k) :
    lookupA (eraseA m k) k' = lookupA m k' := by
  induction m with
  | nil => rfl
  | cons p rest ih =>
    by_cases hp : p.1 = k
    · have hk : ¬ (k = k') := fun e => h e.symm
      simp [eraseA, hp, lookupA, hk, ih]
    · by_cases hq : p.1 = k'
      · simp [eraseA, hp, lookupA, hq, h]
      · simp [eraseA, hp, lookupA, hq, ih]

theorem lookupA_insertA_self (m : List (α × β)) (k : α) (v : β) :
    lookupA (insertA m k v) k = some v := by
  simp [insertA, lookupA]

theorem lookupA_insertA_ne (m : List (α × β)) {k k' : α} (v : β) (h : k' ≠ k) :
    lookupA (insertA m k v) k' = lookupA m k' := by
  have hk : k ≠ k' := fun e => h e.symm
  simp [insertA, lookupA, hk]
  exact lookupA_eraseA_ne m h

theorem lookupA_updateA_self (m : List (α × β)) {k : α} {v : β} (w : β)
    (h : lookupA m k = some v) :
    lookupA (updateA m k w) k = some w := by
  induction m with
  | nil => simp [lookupA] at h
  | cons p rest ih =>
    by_cases hp : p.1 = k
    · simp [updateA, lookupA, hp]
    · have h' : lookupA rest k = some v := by
        simpa [lookupA, hp] using h
      have hr := ih h'
      simp only [updateA] at hr
      simp [updateA, lookupA, hp, hr]

end MapOps

/-! ## Sets of tokens (model of `std::collections::HashSet`) -/

/-- Add a token to the set if absent (model of `HashSet::insert`). -/
def insertS (s : List Nat) (t : Nat) : List Nat :=
  if s.contains t then s else t :: s

/-- Remove a token from the set (model of `HashSet::remove`). -/
def eraseS (s : List Nat) (t : Nat) : List Nat :=
  s.filter (fun x => x != t)

/-! ## Sessions and frames -/

/-- A pre-negotiated session (`Session` from `session.rs`, external):
a `(secret, nonce)` pair, modelled over `Nat`. -/
structure Session where
  secret : Nat
  nonce : Nat
  deriving DecidableEq

/-- Outbound frames observed by this spec (`Sync`, `Ack`, plus the
extension frames `Connection` can enqueue). -/
inductive Frame where
  | sync (nonce : Nat)
  | ack
  | negotiationRequest (name : String) (version : Nat)
  | extensionMessage (name : String) (needEncryption : Bool) (data : List Nat)
  deriving DecidableEq

/-- Modelled from the spec: the data the non-blocking TCP stream will
yield to the handshake parser — nothing complete yet, a complete `Sync`
frame with the given nonce, or a malformed frame. -/
inductive StreamData where
  | empty
  | syncFrame (nonce : Nat)
  | malformed
  deriving DecidableEq

/-- Errors of the handler (`Error` in the source); capacity and duplicate
failures carry their stable message text. -/
inductive NetError where
  | invalidStream (t : Nat)
  | invalidNode (t : Nat)
  | general (msg : String)
  deriving DecidableEq

/-- Upper-layer notifications emitted while holding the Manager
(only `Client::on_node_added` is observed by this spec). -/
inductive NetEvent where
  | nodeAdded (token : Nat)
  deriving DecidableEq

/-- Modelled from the spec: a post-handshake `Connection`
(`connection.rs`, external). It carries the installed session, the
outbound frame queue, and the boolean its `receive` reports
("a frame was consumed"). -/
structure Connection where
  session : Session
  sendQueue : List Frame
  recvSignal : Bool
  deriving DecidableEq

/-- Modelled from the spec: `Connection::new(stream, secret, nonce)` with
the secret and nonce taken from `session`. -/
def Connection.new (session : Session) : Connection :=
  { session := session, sendQueue := [], recvSignal := false }

/-- `Connection::enqueue_sync`: append a `Sync` frame; never blocks. -/
def Connection.enqueue_sync (c : Connection) (nonce : Nat) : Connection :=
  { c with sendQueue := c.sendQueue ++ [Frame.sync nonce] }

/-- `Connection::enqueue_ack`: append an `Ack` frame; never blocks. -/
def Connection.enqueue_ack (c : Connection) : Connection :=
  { c with sendQueue := c.sendQueue ++ [Frame.ack] }

/-- Modelled from the spec: `Connection::receive` reads one available
frame and reports whether a frame was consumed. -/
def Connection.receive (c : Connection) : Bool × Connection :=
  (c.recvSignal, c)

/-- Modelled from the spec: `Connection::send` drains queued frames to
the socket; `false` once the outbound queue is fully drained. -/
def Connection.send (c : Connection) : Bool × Connection :=
  (false, { c with sendQueue := [] })

/-- Modelled from the spec: `UnprocessedConnection`
(`unprocessed_connection.rs`, external) wraps a stream that has not yet
completed the handshake; `parsedSession` holds the session found by a
successful `receive`. -/
structure UnprocessedConnection where
  stream : StreamData
  parsedSession : Option Session
  deriving DecidableEq

/-- `UnprocessedConnection::new`. -/
def UnprocessedConnection.new (s : StreamData) : UnprocessedConnection :=
  { stream := s, parsedSession := none }

/-- Modelled from the spec: `UnprocessedConnection::receive(sessions)`
attempts to parse a `Sync` frame whose nonce keys into `sessions`;
returns the nonce of a complete valid Sync, `none` if more bytes are
needed, and fails if the frame is malformed or the nonce is unknown. -/
def UnprocessedConnection.receive (u : UnprocessedConnection)
    (sessions : List (Nat × Session)) :
    Except NetError (Option Nat × UnprocessedConnection) :=
  match u.stream with
  | StreamData.empty => Except.ok (none, u)
  | StreamData.malformed => Except.error (NetError.general "MalformedSync")
  | StreamData.syncFrame n =>
    match lookupA sessions n with
    | some s => Except.ok (some n, { u with parsedSession := some s })
    | none => Except.error (NetError.general "UnexpectedNonce")

/-- Modelled from the spec: `UnprocessedConnection::process` consumes the
connection and returns a `Connection` with the parsed session installed;
the source calls it exactly once, after a successful `receive`. -/
def UnprocessedConnection.process (u : UnprocessedConnection) : Option Connection :=
  u.parsedSession.map Connection.new

/-- Modelled from the spec: `TokenGenerator` is a bounded integer
allocator over `[lo, hi)`; `allocated` lists the outstanding tokens. -/
structure TokenGenerator where
  lo : Nat
  hi : Nat
  allocated : List Nat
  deriving DecidableEq

/-- `TokenGenerator::new(lo, hi)`. -/
def TokenGenerator.new (lo hi : Nat) : TokenGenerator :=
  { lo := lo, hi := hi, allocated := [] }

/-- Modelled from the spec: `gen` returns some unused token of the range
(here the least one; the spec promises no ordering), or `none` when
saturated. -/
def TokenGenerator.gen (g : TokenGenerator) : Option (Nat × TokenGenerator) :=
  match ((List.range (g.hi - g.lo)).map (fun i => g.lo + i)).find?
      (fun t => ! g.allocated.contains t) with
  | some t => some (t, { g with allocated := t :: g.allocated })
  | none => none

/-- Modelled from the spec: `restore(t)` returns `t` to the free set;
`false` if `t` was already free or out of range. -/
def TokenGenerator.restore (g : TokenGenerator) (t : Nat) : Bool × TokenGenerator :=
  if g.allocated.contains t then (true, { g with allocated := g.allocated.erase t })
  else (false, g)

/-! ## Token-space constants (from the source) -/

def MAX_CONNECTIONS : Nat := 32

def ACCEPT_TOKEN : Nat := 0

def FIRST_CONNECTION_TOKEN : Nat := ACCEPT_TOKEN + 1

def LAST_CONNECTION_TOKEN : Nat := FIRST_CONNECTION_TOKEN + MAX_CONNECTIONS

def FIRST_WAIT_SYNC_TOKEN : Nat := LAST_CONNECTION_TOKEN

def MAX_SYNC_WAITS : Nat := 10

def LAST_WAIT_SYNC_TOKEN : Nat := FIRST_WAIT_SYNC_TOKEN + MAX_SYNC_WAITS

def WAIT_SYNC_MS : Nat := 10 * 1000

/-! ## Manager (`struct Manager` in the source)

Socket addresses are modelled as `Nat`. Every mutating operation returns
the resulting state next to its result, so early-error returns carry the
mutations made before the error, exactly as in the source (`&mut self`).
-/

structure Manager where
  tokens : TokenGenerator
  unprocessed_tokens : List Nat
  connections : List (Nat × Connection)
  unprocessed_connections : List (Nat × UnprocessedConnection)
  registered_sessions : List (Nat × Session)
  socket_to_session : List (Nat × Session)
  waiting_sync_tokens : TokenGenerator
  waiting_sync_stream_to_timer : List (Nat × Nat)
  waiting_sync_timer_to_stream : List (Nat × Nat)
  deriving DecidableEq

/-- `Manager::listen`: fresh token generators and empty maps (the TCP
bind itself is external). -/
def Manager.listen (_socket_address : Nat) : Manager where
  tokens := TokenGenerator.new FIRST_CONNECTION_TOKEN LAST_CONNECTION_TOKEN
  unprocessed_tokens := []
  connections := []
  unprocessed_connections := []
  registered_sessions := []
  socket_to_session := []
  waiting_sync_tokens := TokenGenerator.new FIRST_WAIT_SYNC_TOKEN LAST_WAIT_SYNC_TOKEN
  waiting_sync_stream_to_timer := []
  waiting_sync_timer_to_stream := []

/-- `Manager::register_unprocessed_connection`. Note, as in the source:
the stream token generated first is not restored when the waiting-sync
generator is saturated, and `waiting_sync_timer_to_stream` is populated
with `(token, timer_token)` — keyed by the stream token. -/
def Manager.register_unprocessed_connection (m : Manager) (stream : StreamData) :
    Except NetError (Nat × Nat) × Manager :=
  match m.tokens.gen with
  | none => (Except.error (NetError.general "TooManyConnections"), m)
  | some (token, tokens') =>
    let m := { m with tokens := tokens' }
    match m.waiting_sync_tokens.gen with
    | none => (Except.error (NetError.general "TooManyWaitingSync"), m)
    | some (timer_token, waiting') =>
      let m := { m with waiting_sync_tokens := waiting' }
      let m := { m with
        waiting_sync_stream_to_timer := insertA m.waiting_sync_stream_to_timer token timer_token }
      let m := { m with
        waiting_sync_timer_to_stream := insertA m.waiting_sync_timer_to_stream token timer_token }
      let m := { m with
        unprocessed_connections :=
          insertA m.unprocessed_connections token (UnprocessedConnection.new stream) }
      let m := { m with unprocessed_tokens := insertS m.unprocessed_tokens token }
      (Except.ok (token, timer_token), m)

/-- `Manager::register_connection`. -/
def Manager.register_connection (m : Manager) (connection : Connection) (token : Nat) : Manager :=
  { m with connections := insertA m.connections token connection }

/-- `Manager::remove_waiting_sync_by_stream_token`. Note, as in the
source: the `waiting_sync_timer_to_stream` entry is removed under the
stream token (`.remove(&stream)`). -/
def Manager.remove_waiting_sync_by_stream_token (m : Manager) (stream : Nat) :
    Option UnprocessedConnection × Manager :=
  match lookupA m.waiting_sync_stream_to_timer stream with
  | none => (none, m)
  | some timer =>
    let m := { m with
      waiting_sync_stream_to_timer := eraseA m.waiting_sync_stream_to_timer stream }
    let m := { m with waiting_sync_tokens := (m.waiting_sync_tokens.restore timer).2 }
    let m := { m with
      waiting_sync_timer_to_stream := eraseA m.waiting_sync_timer_to_stream stream }
    let m := { m with unprocessed_tokens := eraseS m.unprocessed_tokens stream }
    let uc := lookupA m.unprocessed_connections stream
    (uc, { m with unprocessed_connections := eraseA m.unprocessed_connections stream })

/-- `Manager::remove_waiting_sync_by_timer_token`: looks the timer token
up in `waiting_sync_timer_to_stream` and, when found, removes both map
sides, restores the timer token and evicts the unprocessed connection. -/
def Manager.remove_waiting_sync_by_timer_token (m : Manager) (timer : Nat) : Manager :=
  match lookupA m.waiting_sync_timer_to_stream timer with
  | none => m
  | some stream =>
    let m := { m with
      waiting_sync_timer_to_stream := eraseA m.waiting_sync_timer_to_stream timer }
    let m := { m with waiting_sync_tokens := (m.waiting_sync_tokens.restore timer).2 }
    let m := { m with
      waiting_sync_stream_to_timer := eraseA m.waiting_sync_stream_to_timer stream }
    let m := { m with unprocessed_tokens := eraseS m.unprocessed_tokens stream }
    { m with unprocessed_connections := eraseA m.unprocessed_connections stream }

/-- `Manager::process_connection`: evict the waiting-sync state by stream
token, turn the unprocessed connection into a `Connection` and enqueue an
`Ack`. The source unwraps both steps; the `none` branches mark states the
source treats as unreachable (it panics there). -/
def Manager.process_connection (m : Manager) (stream : Nat) : Option Connection × Manager :=
  match m.remove_waiting_sync_by_stream_token stream with
  | (none, m') => (none, m')
  | (some u, m') =>
    match u.process with
    | none => (none, m')
    | some c => (some c.enqueue_ack, m')

/-- `Manager::deregister_unprocessed_connection`: restores the stream
token and drops the unprocessed entry (the source hits `unreachable!()`
when the token is absent; that branch leaves the state unchanged here). -/
def Manager.deregister_unprocessed_connection (m : Manager) (token : Nat) : Manager :=
  match lookupA m.unprocessed_connections token with
  | none => m
  | some _ =>
    let m := { m with unprocessed_connections := eraseA m.unprocessed_connections token }
    let m := { m with tokens := (m.tokens.restore token).2 }
    { m with unprocessed_tokens := eraseS m.unprocessed_tokens token }

/-- `Manager::deregister_connection`. -/
def Manager.deregister_connection (m : Manager) (token : Nat) : Manager :=
  match lookupA m.connections token with
  | none => m
  | some _ =>
    let m := { m with connections := eraseA m.connections token }
    { m with tokens := (m.tokens.restore token).2 }

/-- `Manager::create_connection`: pop the session registered for the
address (only from `socket_to_session`), build a connection with
`Sync(nonce)` enqueued, then allocate a stream token. As in the source,
when the token pool is saturated the popped session is not reinstated. -/
def Manager.create_connection (m : Manager) (stream : StreamData) (socket_address : Nat) :
    Except NetError Nat × Manager :=
  match lookupA m.socket_to_session socket_address with
  | none => (Except.error (NetError.general "UnavailableSession"), m)
  | some session =>
    let m := { m with socket_to_session := eraseA m.socket_to_session socket_address }
    let connection := (Connection.new session).enqueue_sync session.nonce
    let _ := stream
    match m.tokens.gen with
    | none => (Except.error (NetError.general "TooManyConnections"), m)
    | some (token, tokens') =>
      let m := { m with tokens := tokens' }
      (Except.ok token, m.register_connection connection token)

/-- `Manager::accept`: `pending` models what `Listener::accept` yields
(the listener itself is external). -/
def Manager.accept (m : Manager) (pending : Option (StreamData × Nat)) :
    Except NetError (Option (Nat × Nat × Nat)) × Manager :=
  match pending with
  | none => (Except.ok none, m)
  | some (stream, socket_address) =>
    match m.register_unprocessed_connection stream with
    | (Except.error e, m') => (Except.error e, m')
    | (Except.ok (s, t), m') => (Except.ok (some (s, t, socket_address)), m')

/-- `Manager::connect`: `stream` models what `Stream::connect` yields
(`none` when the non-blocking connect is not ready). -/
def Manager.connect (m : Manager) (socket_address : Nat) (stream : Option StreamData) :
    Except NetError (Option Nat) × Manager :=
  match stream with
  | none => (Except.ok none, m)
  | some s =>
    match m.create_connection s socket_address with
    | (Except.error e, m') => (Except.error e, m')
    | (Except.ok token, m') => (Except.ok (some token), m')

/-- `Manager::register_session`: duplicate addresses are refused; the
nonce index is overwritten silently. -/
def Manager.register_session (m : Manager) (socket_address : Nat) (session : Session) :
    Except NetError Unit × Manager :=
  if (lookupA m.socket_to_session socket_address).isSome then
    (Except.error (NetError.general "SessionAlreadyRegistered"), m)
  else
    let m := { m with
      registered_sessions := insertA m.registered_sessions session.nonce session }
    let m := { m with socket_to_session := insertA m.socket_to_session socket_address session }
    (Except.ok (), m)

/-- `Manager::deregister_stream` (reactor half only): reports whether the
token names a processed connection; `InvalidStream` when unknown. -/
def Manager.deregister_stream (m : Manager) (stream : Nat) : Except NetError Bool :=
  if (lookupA m.connections stream).isSome then Except.ok true
  else if (lookupA m.unprocessed_connections stream).isSome then Except.ok false
  else Except.error (NetError.invalidStream stream)

/-- `Manager::receive`: the three-way dispatch of the source; the event
list records `client.on_node_added` invocations. -/
def Manager.receive (m : Manager) (stream : Nat) :
    Except NetError Bool × Manager × List NetEvent :=
  match lookupA m.connections stream with
  | some c =>
    let r := c.receive
    (Except.ok r.1, { m with connections := updateA m.connections stream r.2 }, [])
  | none =>
    match lookupA m.unprocessed_connections stream with
    | none => (Except.error (NetError.invalidStream stream), m, [])
    | some u =>
      match u.receive m.registered_sessions with
      | Except.error e => (Except.error e, m, [])
      | Except.ok (none, u') =>
        (Except.ok true,
         { m with unprocessed_connections := updateA m.unprocessed_connections stream u' }, [])
      | Except.ok (some _, u') =>
        let m := { m with
          unprocessed_connections := updateA m.unprocessed_connections stream u' }
        match m.process_connection stream with
        | (none, m') => (Except.error (NetError.general "NoProcessedConnection"), m', [])
        | (some connection, m') =>
          let nonce := connection.session.nonce
          let m' := { m' with registered_sessions := eraseA m'.registered_sessions nonce }
          let m' := m'.register_connection connection stream
          (Except.ok false, m', [NetEvent.nodeAdded stream])

/-- `Manager::send`. -/
def Manager.send (m : Manager) (stream : Nat) : Except NetError Bool × Manager :=
  match lookupA m.connections stream with
  | none => (Except.error (NetError.invalidStream stream), m)
  | some c =>
    let r := c.send
    (Except.ok r.1, { m with connections := updateA m.connections stream r.2 })

/-! ## Handler (`struct Handler` in the source)

The `Handler` owns the `Manager` behind a mutex and the
`NodeToken ↔ SocketAddr` directory behind reader/writer locks; all its
callbacks run serially on the reactor thread, so it is modelled as plain
state passing. -/

structure HandlerState where
  manager : Manager
  node_token_to_socket : List (Nat × Nat)
  socket_to_node_token : List (Nat × Nat)
  deriving DecidableEq

/-- `Handler::new`. -/
def Handler.new (socket_address : Nat) : HandlerState :=
  { manager := Manager.listen socket_address
    node_token_to_socket := []
    socket_to_node_token := [] }

/-- `Handler::timeout`: a waiting-sync timer token is handled by
`remove_waiting_sync_by_timer_token`; the source range pattern
`FIRST_WAIT_SYNC_TOKEN...LAST_WAIT_SYNC_TOKEN` is inclusive, and any
other token hits `unreachable!()` (unchanged state here). -/
def Handler.timeout (h : HandlerState) (token : Nat) : HandlerState :=
  if FIRST_WAIT_SYNC_TOKEN ≤ token ∧ token ≤ LAST_WAIT_SYNC_TOKEN then
    { h with manager := h.manager.remove_waiting_sync_by_timer_token token }
  else h

/-- The `ACCEPT_TOKEN` arm of `Handler::stream_readable`: accept a
pending connection and install the two directory entries (the reactor
stream registration and timer arming are external). -/
def Handler.accept_ready (h : HandlerState) (pending : Option (StreamData × Nat)) :
    Except NetError Unit × HandlerState :=
  match h.manager.accept pending with
  | (Except.error e, m') => (Except.error e, { h with manager := m' })
  | (Except.ok none, m') => (Except.ok (), { h with manager := m' })
  | (Except.ok (some (token, _timer_token, socket_address)), m') =>
    let h := { h with manager := m' }
    let h := { h with
      node_token_to_socket := insertA h.node_token_to_socket token socket_address }
    let h := { h with
      socket_to_node_token := insertA h.socket_to_node_token socket_address token }
    (Except.ok (), h)

/-- `Handler::deregister_stream`: consult `Manager::deregister_stream`
to learn whether the slot is processed, then purge the matching half. -/
def Handler.deregister_stream (h : HandlerState) (stream : Nat) :
    Except NetError Unit × HandlerState :=
  if FIRST_CONNECTION_TOKEN ≤ stream ∧ stream ≤ LAST_CONNECTION_TOKEN then
    match h.manager.deregister_stream stream with
    | Except.error e => (Except.error e, h)
    | Except.ok true => (Except.ok (), { h with manager := h.manager.deregister_connection stream })
    | Except.ok false =>
      (Except.ok (), { h with manager := h.manager.deregister_unprocessed_connection stream })
  else (Except.error (NetError.invalidStream stream), h)

/-- `Handler::stream_hup`: drop both directory entries, then deregister
the stream, which cascades into the `deregister_stream` callback. -/
def Handler.stream_hup (h : HandlerState) (stream : Nat) :
    Except NetError Unit × HandlerState :=
  if FIRST_CONNECTION_TOKEN ≤ stream ∧ stream ≤ LAST_CONNECTION_TOKEN then
    match lookupA h.node_token_to_socket stream with
    | some socket_address =>
      let h := { h with node_token_to_socket := eraseA h.node_token_to_socket stream }
      let h := { h with socket_to_node_token := eraseA h.socket_to_node_token socket_address }
      Handler.deregister_stream h stream
    | none =>
      let h := { h with node_token_to_socket := eraseA h.node_token_to_socket stream }
      Handler.deregister_stream h stream
  else (Except.error (NetError.invalidStream stream), h)

/-- `Handler::stream_writable`: break before `Manager::send` when the
token is unprocessed. The final component counts `Manager::send` calls;
the modelled `Connection::send` drains fully, so the source loop runs at
most once. -/
def Handler.stream_writable (h : HandlerState) (stream : Nat) :
    Except NetError Unit × HandlerState × Nat :=
  if FIRST_CONNECTION_TOKEN ≤ stream ∧ stream ≤ LAST_CONNECTION_TOKEN then
    if h.manager.unprocessed_tokens.contains stream then (Except.ok (), h, 0)
    else
      match h.manager.send stream with
      | (Except.error e, m') => (Except.error e, { h with manager := m' }, 1)
      | (Except.ok _, m') => (Except.ok (), { h with manager := m' }, 1)
  else (Except.error (NetError.invalidStream stream), h, 0)

end P2P

deriving instance DecidableEq for Except

namespace P2P

/-! ## Concrete scenarios -/

/-- The manager after accepting one pending connection from address 100:
stream token 1 and timer token 33 are allocated. -/
def acceptedOnce : Manager :=
  ((Manager.listen 0).accept (some (StreamData.empty, 100))).2

/-- `n` successive accepts from addresses `n-1, …, 0`. -/
def acceptTimes : Nat → Manager → Manager
  | 0, m => m
  | n + 1, m => acceptTimes n (m.accept (some (StreamData.empty, n))).2

/-- Ten accepted, un-synced connections: every waiting-sync timer token
is outstanding while 22 stream tokens remain free. -/
def saturatedTimers : Manager :=
  acceptTimes 10 (Manager.listen 0)

/-- The accept that finds the waiting-sync pool saturated. -/
def overflowAccept : Except NetError (Option (Nat × Nat × Nat)) × Manager :=
  saturatedTimers.accept (some (StreamData.empty, 100))

/-- Handler state after one accept from address 100 (directory entries
installed for stream token 1). -/
def handlerAccepted : HandlerState :=
  (Handler.accept_ready (Handler.new 0) (some (StreamData.empty, 100))).2

/-- The peer of stream token 1 hangs up before any Sync frame arrived. -/
def handlerHup : Except NetError Unit × HandlerState :=
  Handler.stream_hup handlerAccepted 1

/-- A manager holding the session `{secret 5, nonce 9}` registered for
address 7. -/
def sessionRegistered : Manager :=
  ((Manager.listen 0).register_session 7 ⟨5, 9⟩).2

/-- Accept from address 7 whose stream will yield `Sync(9)`. -/
def syncAccepted : Except NetError (Option (Nat × Nat × Nat)) × Manager :=
  sessionRegistered.accept (some (StreamData.syncFrame 9, 7))

/-- The readable event that parses the Sync frame and completes the
handshake for stream token 1. -/
def syncReceived : Except NetError Bool × Manager × List NetEvent :=
  syncAccepted.2.receive 1

/-- Outbound connect to address 7 after registering its session. -/
def connectAfterRegister : Except NetError (Option Nat) × Manager :=
  sessionRegistered.connect 7 (some StreamData.empty)

/-! ## Claims -/

/-- C1: the claim states that `waiting_sync_stream_to_timer` is the exact
inverse of `waiting_sync_timer_to_stream` in every reachable state. The
code violates it at the first accept: `register_unprocessed_connection`
inserts `(stream token, timer token)` into *both* maps, so after one
accept stream 1 maps to timer 33 in the first map while timer 33 maps to
nothing in the second (its only key is the stream token 1) — the maps
are not inverses, although the domain of the first does equal the key
set of `unprocessed_connections`. -/
theorem waiting_sync_maps_not_inverse_after_accept :
    acceptedOnce.waiting_sync_stream_to_timer = [(1, 33)] ∧
    acceptedOnce.waiting_sync_timer_to_stream = [(1, 33)] ∧
    lookupA acceptedOnce.waiting_sync_stream_to_timer 1 = some 33 ∧
    lookupA acceptedOnce.waiting_sync_timer_to_stream 33 = none ∧
    keysA acceptedOnce.unprocessed_connections = [1] := by decide

/-- C2: the claim states that a handshake timeout evicts the unprocessed
connection, removes the timer mapping, restores the timer token and makes
the stream token reusable. The code violates it: `Handler::timeout` calls
`remove_waiting_sync_by_timer_token(33)`, which looks the timer token up
in `waiting_sync_timer_to_stream` — a map keyed (erroneously) by stream
tokens, whose ranges are disjoint from timer tokens — finds nothing and
leaves the whole state unchanged: the unprocessed connection survives and
both tokens stay allocated. -/
theorem timeout_leaves_handshake_state_unchanged :
    Handler.timeout handlerAccepted 33 = handlerAccepted ∧
    lookupA handlerAccepted.manager.unprocessed_connections 1
      = some (UnprocessedConnection.new StreamData.empty) ∧
    handlerAccepted.manager.waiting_sync_tokens.allocated = [33] ∧
    handlerAccepted.manager.tokens.allocated = [1] := by decide

/-- C4: the claim states that a capacity-failing accept leaves the state
unchanged with no stream token allocated. The code violates it when the
waiting-sync pool saturates first: with ten handshakes pending, the
eleventh accept fails with `TooManyWaitingSync`, yet the stream token
(11) generated before the timer-pool check is never restored — it stays
allocated with no connection or map entry behind it. -/
theorem waiting_sync_saturation_leaks_stream_token :
    overflowAccept.1 = Except.error (NetError.general "TooManyWaitingSync") ∧
    overflowAccept.2.tokens.allocated = [11, 10, 9, 8, 7, 6, 5, 4, 3, 2, 1] ∧
    lookupA overflowAccept.2.connections 11 = none ∧
    lookupA overflowAccept.2.unprocessed_connections 11 = none ∧
    lookupA overflowAccept.2.waiting_sync_stream_to_timer 11 = none ∧
    saturatedTimers.tokens.allocated.length = 10 := by decide

/-- C5: the claim states that a hangup before the handshake removes the
timer↔stream mapping and restores both tokens. The code violates the
timer half: `stream_hup` → `deregister_stream` →
`deregister_unprocessed_connection` drops the unprocessed entry, the
directory entries and the stream token, but never touches the
waiting-sync maps or the waiting-sync token generator, so the (1, 33)
mapping and the allocated timer token 33 survive. -/
theorem hangup_before_sync_leaves_timer_state :
    handlerHup.1 = Except.ok () ∧
    handlerHup.2.manager.unprocessed_connections = [] ∧
    handlerHup.2.node_token_to_socket = [] ∧
    handlerHup.2.socket_to_node_token = [] ∧
    handlerHup.2.manager.tokens.allocated = [] ∧
    handlerHup.2.manager.waiting_sync_stream_to_timer = [(1, 33)] ∧
    handlerHup.2.manager.waiting_sync_timer_to_stream = [(1, 33)] ∧
    handlerHup.2.manager.waiting_sync_tokens.allocated = [33] := by decide

/-- C6: the claim states that in every reachable state the number of
allocated stream tokens equals `|connections| + |unprocessed_connections|`.
The code violates it in the state reached by the failed eleventh accept
of `overflowAccept`: 11 stream tokens are allocated while the two maps
hold only 10 entries, and the leaked token 11 appears in neither map. -/
theorem token_conservation_fails_after_saturated_accept :
    overflowAccept.2.tokens.allocated.length = 11 ∧
    overflowAccept.2.connections.length
      + overflowAccept.2.unprocessed_connections.length = 10 ∧
    overflowAccept.2.tokens.allocated.contains 11 = true ∧
    lookupA overflowAccept.2.connections 11 = none ∧
    lookupA overflowAccept.2.unprocessed_connections 11 = none := by decide

/-- C3 counterexample: the claim states that after a completed handshake
the session is absent from both `registered_sessions` and
`socket_to_session`, and that a session never sits in `socket_to_session`
outside the at-most-one-index condition. Both parts fail on the code:
`register_session` puts the session into both indexes at once, and the
handshake completion in `Manager::receive` removes only the
`registered_sessions` entry — address 7 still maps to the consumed
session afterwards. -/
theorem handshake_leaves_socket_to_session_entry :
    lookupA sessionRegistered.registered_sessions 9 = some ⟨5, 9⟩ ∧
    lookupA sessionRegistered.socket_to_session 7 = some ⟨5, 9⟩ ∧
    syncReceived.1 = Except.ok false ∧
    syncReceived.2.2 = [NetEvent.nodeAdded 1] ∧
    lookupA syncReceived.2.1.registered_sessions 9 = none ∧
    lookupA syncReceived.2.1.socket_to_session 7 = some ⟨5, 9⟩ := by decide

/-- C7 counterexample: the claim states that `connect` pops the session
from the session registry in the sense of the entity table — removing
the outgoing session's registry entries, i.e. both the address and the
nonce index. The code violates the nonce half: after a successful
connect for address 7 the `socket_to_session` entry is gone but
`registered_sessions` still maps nonce 9 to the consumed session. -/
theorem connect_keeps_registered_sessions_entry :
    connectAfterRegister.1 = Except.ok (some 1) ∧
    lookupA connectAfterRegister.2.socket_to_session 7 = none ∧
    lookupA connectAfterRegister.2.registered_sessions 9 = some ⟨5, 9⟩ ∧
    lookupA connectAfterRegister.2.connections 1
      = some { session := ⟨5, 9⟩, sendQueue := [Frame.sync 9], recvSignal := false } := by decide

/-- Two inbound connections accepted whose streams both carry `Sync(9)`:
stream token 1 (timer 33, address 7) and stream token 2 (timer 34,
address 8), with the session `{secret 5, nonce 9}` registered. -/
def twoSyncAccepted : Manager :=
  ((sessionRegistered.accept (some (StreamData.syncFrame 9, 7))).2.accept
    (some (StreamData.syncFrame 9, 8))).2

/-- The first of the two Sync-carrying connections completes its
handshake, consuming nonce 9. -/
def firstSyncReceived : Except NetError Bool × Manager × List NetEvent :=
  twoSyncAccepted.receive 1

/-- C3 (amended): a registered session sits in both indexes until it is
consumed. A successful inbound handshake removes it from
`registered_sessions` by nonce only — `socket_to_session` is untouched by
`Manager::receive` — and the nonce is consumed at most once: any state
whose nonce index lacks `n` rejects a further `Sync(n)` with
`UnexpectedNonce`. -/
theorem handshake_consumes_nonce_index_once :
    ∀ (m : Manager) (stream : Nat) (u : UnprocessedConnection)
      (n : Nat) (s : Session) (timer : Nat),
      lookupA m.connections stream = none →
      lookupA m.unprocessed_connections stream = some u →
      u.stream = StreamData.syncFrame n →
      lookupA m.registered_sessions n = some s →
      s.nonce = n →
      lookupA m.waiting_sync_stream_to_timer stream = some timer →
      ((m.receive stream).1 = Except.ok false ∧
       (m.receive stream).2.1.socket_to_session = m.socket_to_session ∧
       lookupA (m.receive stream).2.1.registered_sessions n = none) ∧
      (∀ (m2 : Manager) (stream2 : Nat) (u2 : UnprocessedConnection),
        lookupA m2.registered_sessions n = none →
        lookupA m2.connections stream2 = none →
        lookupA m2.unprocessed_connections stream2 = some u2 →
        u2.stream = StreamData.syncFrame n →
        (m2.receive stream2).1 = Except.error (NetError.general "UnexpectedNonce")) := by
  intro m stream u n s timer h1 h2 hstream hreg hsn h5
  have hrecv : u.receive m.registered_sessions
      = Except.ok (some n, { u with parsedSession := some s }) := by
    simp only [UnprocessedConnection.receive, hstream, hreg]
  have hu' : lookupA (updateA m.unprocessed_connections stream
      { u with parsedSession := some s }) stream
      = some { u with parsedSession := some s } :=
    lookupA_updateA_self _ _ h2
  constructor
  · refine ⟨?_, ?_, ?_⟩ <;>
      simp only [Manager.receive, h1, h2, hrecv, Manager.process_connection,
        Manager.remove_waiting_sync_by_stream_token, Manager.register_connection,
        UnprocessedConnection.process, Connection.enqueue_ack, Connection.new,
        h5, hu', Option.map_some', hsn, lookupA_eraseA_self]
  · intro m2 stream2 u2 hk1 hk2 hk3 hk4
    have hrecv2 : u2.receive m2.registered_sessions
        = Except.error (NetError.general "UnexpectedNonce") := by
      simp only [UnprocessedConnection.receive, hk4, hk1]
    simp only [Manager.receive, hk2, hk3, hrecv2]

/-- C3 amended, witness: in the two-Sync scenario the first handshake
completes, leaves `socket_to_session` unchanged, empties the nonce index,
and the second connection's `Sync(9)` is then rejected. -/
theorem handshake_consumes_nonce_index_once_witness :
    (firstSyncReceived.1 = Except.ok false ∧
     firstSyncReceived.2.1.socket_to_session = twoSyncAccepted.socket_to_session ∧
     lookupA firstSyncReceived.2.1.registered_sessions 9 = none) ∧
    (firstSyncReceived.2.1.receive 2).1
      = Except.error (NetError.general "UnexpectedNonce") := by
  have h := handshake_consumes_nonce_index_once twoSyncAccepted 1
    ⟨StreamData.syncFrame 9, none⟩ 9 ⟨5, 9⟩ 33 rfl rfl rfl rfl rfl rfl
  exact ⟨h.1, h.2 firstSyncReceived.2.1 2 ⟨StreamData.syncFrame 9, none⟩
    h.1.2.2 rfl rfl rfl⟩

/-- C7 (amended): `connect(addr)` fails with `UnavailableSession` and
leaves the state unchanged when `socket_to_session` has no entry for
`addr`; otherwise it pops the session from `socket_to_session` only —
the `registered_sessions` nonce entry survives — builds a connection
with `Sync(nonce)` enqueued, allocates a stream token and installs the
connection under it. -/
theorem connect_pops_socket_to_session_only :
    ∀ (m : Manager) (socket_address : Nat) (st : StreamData),
      (lookupA m.socket_to_session socket_address = none →
        m.connect socket_address (some st)
          = (Except.error (NetError.general "UnavailableSession"), m)) ∧
      (∀ (s : Session) (token : Nat) (g : TokenGenerator),
        lookupA m.socket_to_session socket_address = some s →
        m.tokens.gen = some (token, g) →
        (m.connect socket_address (some st)).1 = Except.ok (some token) ∧
        lookupA (m.connect socket_address (some st)).2.connections token
          = some ((Connection.new s).enqueue_sync s.nonce) ∧
        lookupA (m.connect socket_address (some st)).2.socket_to_session socket_address
          = none ∧
        (m.connect socket_address (some st)).2.registered_sessions
          = m.registered_sessions ∧
        (m.connect socket_address (some st)).2.tokens = g) := by
  intro m socket_address st
  constructor
  · intro hs
    simp only [Manager.connect, Manager.create_connection, hs]
  · intro s token g hs hgen
    refine ⟨?_, ?_, ?_, ?_, ?_⟩ <;>
      simp only [Manager.connect, Manager.create_connection, hs, hgen,
        Manager.register_connection, lookupA_insertA_self, lookupA_eraseA_self]

/-- C7 amended, witness: with `{secret 5, nonce 9}` registered for
address 7, connecting to address 8 fails with `UnavailableSession` and
changes nothing, while connecting to address 7 installs stream token 1
with `Sync(9)` enqueued, empties the address index and keeps the nonce
index. -/
theorem connect_pops_socket_to_session_only_witness :
    sessionRegistered.connect 8 (some StreamData.empty)
      = (Except.error (NetError.general "UnavailableSession"), sessionRegistered) ∧
    ((sessionRegistered.connect 7 (some StreamData.empty)).1 = Except.ok (some 1) ∧
     lookupA (sessionRegistered.connect 7 (some StreamData.empty)).2.connections 1
       = some ((Connection.new ⟨5, 9⟩).enqueue_sync 9) ∧
     lookupA (sessionRegistered.connect 7 (some StreamData.empty)).2.socket_to_session 7
       = none ∧
     (sessionRegistered.connect 7 (some StreamData.empty)).2.registered_sessions
       = sessionRegistered.registered_sessions ∧
     (sessionRegistered.connect 7 (some StreamData.empty)).2.tokens = ⟨1, 33, [1]⟩) := by
  refine ⟨(connect_pops_socket_to_session_only sessionRegistered 8 StreamData.empty).1 rfl, ?_⟩
  exact (connect_pops_socket_to_session_only sessionRegistered 7 StreamData.empty).2
    ⟨5, 9⟩ 1 ⟨1, 33, [1]⟩ rfl rfl

/-- C8: the three-case contract of `Manager::receive`. An established
connection's receive result is returned as-is; an unprocessed connection
yielding no complete Sync returns `true` with only the buffered
unprocessed entry written back; a parsed Sync removes the waiting-sync
state, restores the timer token, installs a processed connection with an
`Ack` enqueued, removes the consumed nonce from `registered_sessions`,
fires `on_node_added` exactly once, and returns `false`. -/
theorem receive_three_case_dispatch :
    (∀ (m : Manager) (stream : Nat) (c : Connection),
      lookupA m.connections stream = some c →
      m.receive stream =
        (Except.ok c.recvSignal,
         { m with connections := updateA m.connections stream c }, [])) ∧
    (∀ (m : Manager) (stream : Nat) (u u' : UnprocessedConnection),
      lookupA m.connections stream = none →
      lookupA m.unprocessed_connections stream = some u →
      u.receive m.registered_sessions = Except.ok (none, u') →
      m.receive stream =
        (Except.ok true,
         { m with unprocessed_connections := updateA m.unprocessed_connections stream u' },
         [])) ∧
    (∀ (m : Manager) (stream : Nat) (u u' : UnprocessedConnection)
        (n timer : Nat) (s : Session),
      lookupA m.connections stream = none →
      lookupA m.unprocessed_connections stream = some u →
      u.receive m.registered_sessions = Except.ok (some n, u') →
      u'.parsedSession = some s →
      lookupA m.waiting_sync_stream_to_timer stream = some timer →
      (m.receive stream).1 = Except.ok false ∧
      (m.receive stream).2.2 = [NetEvent.nodeAdded stream] ∧
      lookupA (m.receive stream).2.1.connections stream
        = some (Connection.new s).enqueue_ack ∧
      lookupA (m.receive stream).2.1.unprocessed_connections stream = none ∧
      lookupA (m.receive stream).2.1.waiting_sync_stream_to_timer stream = none ∧
      (m.receive stream).2.1.waiting_sync_tokens
        = (m.waiting_sync_tokens.restore timer).2 ∧
      lookupA (m.receive stream).2.1.registered_sessions s.nonce = none) := by
  refine ⟨?_, ?_, ?_⟩
  · intro m stream c h
    simp only [Manager.receive, h, Connection.receive]
  · intro m stream u u' h1 h2 h3
    simp only [Manager.receive, h1, h2, h3]
  · intro m stream u u' n timer s h1 h2 h3 h4 h5
    have hu' : lookupA (updateA m.unprocessed_connections stream u') stream = some u' :=
      lookupA_updateA_self _ _ h2
    refine ⟨?_, ?_, ?_, ?_, ?_, ?_, ?_⟩ <;>
      simp only [Manager.receive, h1, h2, h3, Manager.process_connection,
        Manager.remove_waiting_sync_by_stream_token, Manager.register_connection,
        UnprocessedConnection.process, h4, h5, hu', Option.map_some',
        Connection.enqueue_ack, Connection.new,
        lookupA_insertA_self, lookupA_eraseA_self]

/-- C8 witness: the three cases at concrete states — the established
connection of `connectAfterRegister`, the Sync-less unprocessed
connection of `acceptedOnce`, and the Sync-carrying connection of
`syncAccepted`. -/
theorem receive_three_case_dispatch_witness :
    Manager.receive connectAfterRegister.2 1
      = (Except.ok false,
         { connectAfterRegister.2 with
            connections := updateA connectAfterRegister.2.connections 1
              ⟨⟨5, 9⟩, [Frame.sync 9], false⟩ }, []) ∧
    Manager.receive acceptedOnce 1
      = (Except.ok true,
         { acceptedOnce with
            unprocessed_connections := updateA acceptedOnce.unprocessed_connections 1
              ⟨StreamData.empty, none⟩ }, []) ∧
    ((syncAccepted.2.receive 1).1 = Except.ok false ∧
     (syncAccepted.2.receive 1).2.2 = [NetEvent.nodeAdded 1] ∧
     lookupA (syncAccepted.2.receive 1).2.1.connections 1
       = some (Connection.new ⟨5, 9⟩).enqueue_ack ∧
     lookupA (syncAccepted.2.receive 1).2.1.unprocessed_connections 1 = none ∧
     lookupA (syncAccepted.2.receive 1).2.1.waiting_sync_stream_to_timer 1 = none ∧
     (syncAccepted.2.receive 1).2.1.waiting_sync_tokens
       = (syncAccepted.2.waiting_sync_tokens.restore 33).2 ∧
     lookupA (syncAccepted.2.receive 1).2.1.registered_sessions 9 = none) := by
  refine ⟨receive_three_case_dispatch.1 connectAfterRegister.2 1
      ⟨⟨5, 9⟩, [Frame.sync 9], false⟩ rfl,
    receive_three_case_dispatch.2.1 acceptedOnce 1
      ⟨StreamData.empty, none⟩ ⟨StreamData.empty, none⟩ rfl rfl rfl, ?_⟩
  exact receive_three_case_dispatch.2.2 syncAccepted.2 1
    ⟨StreamData.syncFrame 9, none⟩ ⟨StreamData.syncFrame 9, some ⟨5, 9⟩⟩
    9 33 ⟨5, 9⟩ rfl rfl rfl rfl rfl

/-- C9: `Manager::send` answers `InvalidStream(token)` with the state
unchanged for every token outside `connections` — live unprocessed
tokens included — while the Handler's writable loop checks
`unprocessed_tokens` first and breaks without ever calling
`Manager::send` (zero send calls, state unchanged). -/
theorem send_requires_processed_connection :
    ∀ (h : HandlerState) (stream : Nat),
      (lookupA h.manager.connections stream = none →
        h.manager.send stream
          = (Except.error (NetError.invalidStream stream), h.manager)) ∧
      (FIRST_CONNECTION_TOKEN ≤ stream → stream ≤ LAST_CONNECTION_TOKEN →
        h.manager.unprocessed_tokens.contains stream = true →
        Handler.stream_writable h stream = (Except.ok (), h, 0)) := by
  intro h stream
  constructor
  · intro hc
    simp only [Manager.send, hc]
  · intro hlo hhi hu
    simp only [Handler.stream_writable, hlo, hhi, and_self, if_true, hu]

/-- C9 witness: in `handlerAccepted`, token 1 is a live unprocessed
connection; `Manager::send 1` fails with `InvalidStream 1` leaving the
manager unchanged, and the writable event performs zero sends. -/
theorem send_requires_processed_connection_witness :
    handlerAccepted.manager.send 1
      = (Except.error (NetError.invalidStream 1), handlerAccepted.manager) ∧
    Handler.stream_writable handlerAccepted 1 = (Except.ok (), handlerAccepted, 0) := by
  exact ⟨(send_requires_processed_connection handlerAccepted 1).1 rfl,
    (send_requires_processed_connection handlerAccepted 1).2
      (by decide) (by decide) rfl⟩

/-- C10: `register_session` enforces uniqueness only on the address: two
registrations under distinct addresses whose sessions share a nonce both
succeed, the second silently overwrites the `registered_sessions` entry
for that nonce, and the first session stays reachable only through
`socket_to_session`. -/
theorem register_session_address_only_uniqueness :
    ∀ (m : Manager) (a1 a2 : Nat) (s1 s2 : Session),
      a1 ≠ a2 →
      s1.nonce = s2.nonce →
      lookupA m.socket_to_session a1 = none →
      lookupA m.socket_to_session a2 = none →
      (m.register_session a1 s1).1 = Except.ok () ∧
      ((m.register_session a1 s1).2.register_session a2 s2).1 = Except.ok () ∧
      lookupA ((m.register_session a1 s1).2.register_session a2 s2).2.registered_sessions
          s1.nonce = some s2 ∧
      lookupA ((m.register_session a1 s1).2.register_session a2 s2).2.socket_to_session
          a1 = some s1 ∧
      lookupA ((m.register_session a1 s1).2.register_session a2 s2).2.socket_to_session
          a2 = some s2 := by
  intro m a1 a2 s1 s2 hne hnonce h1 h2
  have h2' : lookupA (insertA m.socket_to_session a1 s1) a2 = none := by
    rw [lookupA_insertA_ne _ _ hne.symm]
    exact h2
  refine ⟨by simp only [Manager.register_session, h1, Option.isSome_none,
      Bool.false_eq_true, if_false], ?_, ?_, ?_, ?_⟩
  · simp only [Manager.register_session, h1, Option.isSome_none, Bool.false_eq_true,
      if_false, h2']
  · simp only [Manager.register_session, h1, Option.isSome_none, Bool.false_eq_true,
      if_false, h2', hnonce, lookupA_insertA_self]
  · simp only [Manager.register_session, h1, Option.isSome_none, Bool.false_eq_true,
      if_false, h2']
    rw [lookupA_insertA_ne _ _ hne, lookupA_insertA_self]
  · simp only [Manager.register_session, h1, Option.isSome_none, Bool.false_eq_true,
      if_false, h2', lookupA_insertA_self]

/-- C10 witness: registering `{secret 1, nonce 9}` for address 3 and then
`{secret 2, nonce 9}` for address 4 both succeed; nonce 9 now resolves to
the second session while address 3 still holds the first. -/
theorem register_session_address_only_uniqueness_witness :
    ((Manager.listen 0).register_session 3 ⟨1, 9⟩).1 = Except.ok () ∧
    (((Manager.listen 0).register_session 3 ⟨1, 9⟩).2.register_session 4 ⟨2, 9⟩).1
      = Except.ok () ∧
    lookupA (((Manager.listen 0).register_session 3 ⟨1, 9⟩).2.register_session 4
        ⟨2, 9⟩).2.registered_sessions 9 = some ⟨2, 9⟩ ∧
    lookupA (((Manager.listen 0).register_session 3 ⟨1, 9⟩).2.register_session 4
        ⟨2, 9⟩).2.socket_to_session 3 = some ⟨1, 9⟩ ∧
    lookupA (((Manager.listen 0).register_session 3 ⟨1, 9⟩).2.register_session 4
        ⟨2, 9⟩).2.socket_to_session 4 = some ⟨2, 9⟩ := by
  exact register_session_address_only_uniqueness (Manager.listen 0) 3 4 ⟨1, 9⟩ ⟨2, 9⟩
    (by decide) rfl rfl rfl

end P2P
